import Mathlib

/-!
Verification development for the BlenRose material editor
(`src/BlenRose.py`): a shallow embedding of its graph synchronizer,
auto-fill, class/subclass tables and scene-export helpers, together with
theorems settling the frozen claims about them.

Modelling conventions:
* Python floats are modelled as `Rat` (the claims only concern exact
  assignments, permutation/negation transforms, and inclusive
  comparisons, all of which are representation-independent).
* Blender image datablocks are modelled as `Option Nat` handles
  (`none` = no image assigned).
* A shading node is a flat record holding exactly the pieces of node
  state the add-on reads or writes: name, type string, label, assigned
  image, `uv_map`, the "Scale" vector input and the "Fac" scalar input.
* Node links are records of (from-node, from-socket, to-node, to-socket)
  names.  Blender enforces unique node names inside a tree, so
  identifying link endpoints by node name is faithful; theorems that
  need uniqueness state it as a hypothesis.
* The two `MixShader` shader inputs (Python `inputs[1]` / `inputs[2]`)
  are distinguished here by the socket names "Shader[1]" and
  "Shader[2]"; the `Fac` input is `inputs[0]` ("Fac").
-/

namespace BlenRose

structure Node where
  name : String
  ntype : String
  label : String := ""
  image : Option Nat := none
  uv_map : String := ""
  scale : Rat × Rat × Rat := (1, 1, 1)
  fac : Rat := mkRat 1 2
deriving Repr, DecidableEq

structure Link where
  fromNode : String
  fromSocket : String
  toNode : String
  toSocket : String
deriving Repr, DecidableEq

structure NodeTree where
  nodes : List Node
  links : List Link
deriving Repr, DecidableEq

/-- Per-material BlenRose settings (`BlenroseMaterialSettings`).
Texture channels are `Option Nat` image handles; UV channels are the
enum identifier strings (the EnumProperty always yields a string; an
unresolvable state yields `""`).  `material_subclass_index` is the
integer index Blender stores for an EnumProperty whose `items` is a
callback (see the source comment at the `material_subclass` property).
The fields named `overlay_*` embed the source's `macro_overlay_*`
properties. -/
structure Settings where
  enabled : Bool := false
  material_class : String := "ENVIRONMENT"
  material_subclass_index : Nat := 0
  notes : String := ""
  diffuse_tex : Option Nat := none
  lightmap_tex : Option Nat := none
  specular_tex : Option Nat := none
  normal_tex : Option Nat := none
  detail_tex : Option Nat := none
  overlay_tex : Option Nat := none
  environment_tex : Option Nat := none
  decal_tex : Option Nat := none
  transparent_tex : Option Nat := none
  noise_tex : Option Nat := none
  diffuse_uv : String := "UV0"
  lightmap_uv : String := "UV1"
  specular_uv : String := "UV0"
  normal_uv : String := "UV0"
  detail_uv : String := "UV0"
  overlay_uv : String := "UV0"
  environment_uv : String := "UV0"
  decal_uv : String := "UV0"
  transparent_uv : String := "UV0"
  noise_uv : String := "UV0"
  detail_normal_uv_scale : Rat := 8
  overlay_opacity : Rat := 1
  overlay_uv_scale : Rat := mkRat 3 10
  embedded_decal : Rat := 1
  diffuse_has_alpha : Bool := false
  physics_surface : String := "0"
  audio_surface : String := "0"
  surface_pattern : String := "0"
deriving Repr, DecidableEq

/-- Python's `name.startswith("BR_")`, the reserved-namespace test used
by `_update_enabled` and by the managed-subgraph naming convention.
Stated over the character list so concrete instances evaluate inside
the kernel. -/
def inBRNamespace (nm : String) : Bool :=
  nm.data.take 3 == ['B', 'R', '_']

/-- `nt.nodes.get(name)` in the Blender API: look a node up by name. -/
def getNode (nt : NodeTree) (nm : String) : Option Node :=
  nt.nodes.find? (fun n => n.name == nm)

/-- `mix_shader.inputs["Fac"].is_linked` for the node named
"BR_MixShader": some link targets that socket. -/
def facIsLinked (links : List Link) : Bool :=
  links.any (fun l => l.toNode == "BR_MixShader" && l.toSocket == "Fac")

/-- The lightmap-to-emission connection checked at the end of
`_update_all_blenrose_nodes`: a link from the Color output of
"BR_LightmapTex" to the Color input of "BR_Emission". -/
def lightmapLinkExists (links : List Link) : Bool :=
  links.any (fun l =>
    l.fromNode == "BR_LightmapTex" && l.toNode == "BR_Emission" &&
    l.fromSocket == "Color" && l.toSocket == "Color")

def lightmapEmissionLink : Link :=
  { fromNode := "BR_LightmapTex", fromSocket := "Color",
    toNode := "BR_Emission", toSocket := "Color" }

/-- The critical-node presence check of `_update_all_blenrose_nodes`
(lines 796-802): true when any of BR_BSDF, BR_MixShader, BR_Emission
is absent. -/
def criticalMissing (nt : NodeTree) : Bool :=
  ["BR_BSDF", "BR_MixShader", "BR_Emission"].any
    (fun nm => (getNode nt nm).isNone)

/-- One node's worth of the targeted patch performed by
`_update_all_blenrose_nodes` (lines 811-874): texture nodes get the
settings' image, UV-map nodes get the settings' UV name when nonempty,
the two Mapping nodes get their scale vectors, BR_MacroMix gets the
overlay opacity, and BR_MixShader gets Fac = 0.02 when that input
carries no link.  `fl` is the value of `is_linked` for BR_MixShader's
Fac input, read from the tree's links before the patch (the patch
itself never changes links). -/
def patchNode (s : Settings) (fl : Bool) (n : Node) : Node :=
  match n.name with
  | "BR_DiffuseTex" =>
      if n.ntype == "TEX_IMAGE" then { n with image := s.diffuse_tex } else n
  | "BR_LightmapTex" =>
      if n.ntype == "TEX_IMAGE" then { n with image := s.lightmap_tex } else n
  | "BR_SpecularTex" =>
      if n.ntype == "TEX_IMAGE" then { n with image := s.specular_tex } else n
  | "BR_NormalTex" =>
      if n.ntype == "TEX_IMAGE" then { n with image := s.normal_tex } else n
  | "BR_DetailTex" =>
      if n.ntype == "TEX_IMAGE" then { n with image := s.detail_tex } else n
  | "BR_MacroOverlayTex" =>
      if n.ntype == "TEX_IMAGE" then { n with image := s.overlay_tex } else n
  | "BR_EnvironmentTex" =>
      if n.ntype == "TEX_IMAGE" then { n with image := s.environment_tex } else n
  | "BR_DecalTex" =>
      if n.ntype == "TEX_IMAGE" then { n with image := s.decal_tex } else n
  | "BR_TransparentTex" =>
      if n.ntype == "TEX_IMAGE" then { n with image := s.transparent_tex } else n
  | "BR_NoiseTex" =>
      if n.ntype == "TEX_IMAGE" then { n with image := s.noise_tex } else n
  | "BR_DiffuseUV" =>
      if n.ntype == "UVMAP" && s.diffuse_uv != "" then { n with uv_map := s.diffuse_uv } else n
  | "BR_LightmapUV" =>
      if n.ntype == "UVMAP" && s.lightmap_uv != "" then { n with uv_map := s.lightmap_uv } else n
  | "BR_SpecularUV" =>
      if n.ntype == "UVMAP" && s.specular_uv != "" then { n with uv_map := s.specular_uv } else n
  | "BR_NormalUV" =>
      if n.ntype == "UVMAP" && s.normal_uv != "" then { n with uv_map := s.normal_uv } else n
  | "BR_DetailUV" =>
      if n.ntype == "UVMAP" && s.detail_uv != "" then { n with uv_map := s.detail_uv } else n
  | "BR_MacroOverlayUV" =>
      if n.ntype == "UVMAP" && s.overlay_uv != "" then { n with uv_map := s.overlay_uv } else n
  | "BR_EnvironmentUV" =>
      if n.ntype == "UVMAP" && s.environment_uv != "" then { n with uv_map := s.environment_uv } else n
  | "BR_DecalUV" =>
      if n.ntype == "UVMAP" && s.decal_uv != "" then { n with uv_map := s.decal_uv } else n
  | "BR_TransparentUV" =>
      if n.ntype == "UVMAP" && s.transparent_uv != "" then { n with uv_map := s.transparent_uv } else n
  | "BR_NoiseUV" =>
      if n.ntype == "UVMAP" && s.noise_uv != "" then { n with uv_map := s.noise_uv } else n
  | "BR_DetailMapping" =>
      { n with scale := (s.detail_normal_uv_scale, s.detail_normal_uv_scale, 1) }
  | "BR_MacroMapping" =>
      { n with scale := (s.overlay_uv_scale, s.overlay_uv_scale, 1) }
  | "BR_MacroMix" =>
      { n with fac := s.overlay_opacity }
  | "BR_MixShader" =>
      if fl then n else { n with fac := mkRat 2 100 }
  | _ => n

def patchNodes (s : Settings) (fl : Bool) (nodes : List Node) : List Node :=
  nodes.map (patchNode s fl)

/-- The final step of `_update_all_blenrose_nodes` (lines 876-890):
when both BR_Emission and BR_LightmapTex are present and the
lightmap-to-emission link is missing, create it. -/
def ensureLightmapLink (nt : NodeTree) : NodeTree :=
  if (getNode nt "BR_Emission").isSome && (getNode nt "BR_LightmapTex").isSome then
    if lightmapLinkExists nt.links then nt
    else { nt with links := nt.links ++ [lightmapEmissionLink] }
  else nt

/-- A UV Map node as created by `_build_blenrose_node_tree`: default
`uv_map` is `""`, then overwritten with the settings value when that
value is nonempty (the Python `if name:` truthiness test). -/
def mkUvNode (nm : String) (uv : String) : Node :=
  { name := nm, ntype := "UVMAP", uv_map := if uv == "" then "" else uv }

/-- An Image Texture node as created by `_build_blenrose_node_tree`. -/
def mkTexNode (nm : String) (lbl : String) (img : Option Nat) : Node :=
  { name := nm, ntype := "TEX_IMAGE", label := lbl, image := img }

/-- A Mapping node with its "Scale" input set to `(k, k, 1)`. -/
def mkMappingNode (nm : String) (k : Rat) : Node :=
  { name := nm, ntype := "MAPPING", scale := (k, k, 1) }

/-- A MixRGB node with blend type MIX and the given "Fac". -/
def mkMixRGBNode (nm : String) (lbl : String) (f : Rat) : Node :=
  { name := nm, ntype := "MIX_RGB", label := lbl, fac := f }

/-- `_build_blenrose_node_tree` (lines 933-1145): clear every node of
the tree (which also drops every link), then create the fixed BlenRose
setup.  Nodes the source creates without assigning a name carry the
default name Blender gives them ("Material Output", "Separate RGB",
and "Normal Map" for the detail normal-decode node).  The specular
input probing (lines 1022-1029) is resolved against the Blender 3.x
principled BSDF declared in `bl_info`, whose input is named
"Specular", so the Separate RGB branch is always built.  The detail
and macro-overlay branches exist only when their source texture is
set.  The result is a pure function of the settings record. -/
def build_blenrose_node_tree (s : Settings) : NodeTree :=
  let detailOn := s.detail_tex.isSome
  let macroOn := s.overlay_tex.isSome
  let nodes : List Node :=
    [ { name := "Material Output", ntype := "OUTPUT_MATERIAL" },
      { name := "BR_BSDF", ntype := "BSDF_PRINCIPLED" },
      { name := "BR_MixShader", ntype := "MIX_SHADER", fac := mkRat 2 100 },
      { name := "BR_Emission", ntype := "EMISSION" },
      mkUvNode "BR_DiffuseUV" s.diffuse_uv,
      mkTexNode "BR_DiffuseTex" "DiffuseTexture" s.diffuse_tex,
      mkUvNode "BR_NormalUV" s.normal_uv,
      mkTexNode "BR_NormalTex" "NormalTexture" s.normal_tex,
      { name := "BR_NormalMap", ntype := "NORMAL_MAP" },
      mkUvNode "BR_SpecularUV" s.specular_uv,
      mkTexNode "BR_SpecularTex" "SpecularTexture" s.specular_tex,
      { name := "Separate RGB", ntype := "SEPRGB", label := "Specular Extract" },
      mkUvNode "BR_LightmapUV" s.lightmap_uv,
      mkTexNode "BR_LightmapTex" "LightMapTexture" s.lightmap_tex ]
    ++ (if detailOn then
      [ mkUvNode "BR_DetailUV" s.detail_uv,
        mkMappingNode "BR_DetailMapping" s.detail_normal_uv_scale,
        mkTexNode "BR_DetailTex" "DetailTexture" s.detail_tex,
        { name := "Normal Map", ntype := "NORMAL_MAP", label := "Detail Normal Map" },
        mkMixRGBNode "BR_NormalMix" "" (mkRat 1 2) ]
      else [])
    ++ (if macroOn then
      [ mkUvNode "BR_MacroOverlayUV" s.overlay_uv,
        mkMappingNode "BR_MacroMapping" s.overlay_uv_scale,
        mkTexNode "BR_MacroOverlayTex" "MacroOverlayTexture" s.overlay_tex,
        mkMixRGBNode "BR_MacroMix" "" s.overlay_opacity ]
      else [])
  let baseNormalFrom : String × String :=
    if detailOn then ("BR_NormalMix", "Color") else ("BR_NormalMap", "Normal")
  let baseColorFrom : String × String :=
    if macroOn then ("BR_MacroMix", "Color") else ("BR_DiffuseTex", "Color")
  let links : List Link :=
    [ { fromNode := "BR_DiffuseUV", fromSocket := "UV", toNode := "BR_DiffuseTex", toSocket := "Vector" },
      { fromNode := "BR_NormalUV", fromSocket := "UV", toNode := "BR_NormalTex", toSocket := "Vector" },
      { fromNode := "BR_NormalTex", fromSocket := "Color", toNode := "BR_NormalMap", toSocket := "Color" },
      { fromNode := "BR_SpecularUV", fromSocket := "UV", toNode := "BR_SpecularTex", toSocket := "Vector" },
      { fromNode := "BR_SpecularTex", fromSocket := "Color", toNode := "Separate RGB", toSocket := "Image" },
      { fromNode := "Separate RGB", fromSocket := "R", toNode := "BR_BSDF", toSocket := "Specular" },
      { fromNode := "BR_LightmapUV", fromSocket := "UV", toNode := "BR_LightmapTex", toSocket := "Vector" },
      lightmapEmissionLink,
      { fromNode := "BR_Emission", fromSocket := "Emission", toNode := "BR_MixShader", toSocket := "Shader[2]" } ]
    ++ (if detailOn then
      [ { fromNode := "BR_DetailUV", fromSocket := "UV", toNode := "BR_DetailMapping", toSocket := "Vector" },
        { fromNode := "BR_DetailMapping", fromSocket := "Vector", toNode := "BR_DetailTex", toSocket := "Vector" },
        { fromNode := "BR_DetailTex", fromSocket := "Color", toNode := "Normal Map", toSocket := "Color" },
        { fromNode := "BR_NormalMap", fromSocket := "Normal", toNode := "BR_NormalMix", toSocket := "Color1" },
        { fromNode := "Normal Map", fromSocket := "Normal", toNode := "BR_NormalMix", toSocket := "Color2" } ]
      else [])
    ++ [ { fromNode := baseNormalFrom.1, fromSocket := baseNormalFrom.2, toNode := "BR_BSDF", toSocket := "Normal" } ]
    ++ (if macroOn then
      [ { fromNode := "BR_MacroOverlayUV", fromSocket := "UV", toNode := "BR_MacroMapping", toSocket := "Vector" },
        { fromNode := "BR_MacroMapping", fromSocket := "Vector", toNode := "BR_MacroOverlayTex", toSocket := "Vector" },
        { fromNode := "BR_DiffuseTex", fromSocket := "Color", toNode := "BR_MacroMix", toSocket := "Color1" },
        { fromNode := "BR_MacroOverlayTex", fromSocket := "Color", toNode := "BR_MacroMix", toSocket := "Color2" } ]
      else [])
    ++ [ { fromNode := baseColorFrom.1, fromSocket := baseColorFrom.2, toNode := "BR_BSDF", toSocket := "Base Color" },
         { fromNode := "BR_BSDF", fromSocket := "BSDF", toNode := "BR_MixShader", toSocket := "Shader[1]" },
         { fromNode := "BR_MixShader", fromSocket := "Shader", toNode := "Material Output", toSocket := "Surface" } ]
  { nodes := nodes, links := links }

/-- `_update_all_blenrose_nodes` (lines 774-890), the synchronizer's
settings-change update entry point.  `suppressed` is the process-wide
`_SUPPRESSED_UPDATE_MATERIALS` set and `matPtr` the owning material's
`as_pointer()` identity; a suppressed material returns immediately.
Otherwise, if any critical node is missing the whole tree is rebuilt;
else the targeted patch runs and then the lightmap-to-emission link is
re-established. -/
def updateAllBlenroseNodes (suppressed : List Nat) (matPtr : Nat)
    (s : Settings) (nt : NodeTree) : NodeTree :=
  if matPtr ∈ suppressed then nt
  else if criticalMissing nt then build_blenrose_node_tree s
  else
    let fl := facIsLinked nt.links
    ensureLightmapLink { nt with nodes := patchNodes s fl nt.nodes }

/-- Removing one node from a tree in the Blender API: the node leaves
the node list and the host drops every link attached to it. -/
def removeNodeFromTree (nt : NodeTree) (n : Node) : NodeTree :=
  { nodes := nt.nodes.erase n,
    links := nt.links.filter
      (fun l => !(l.fromNode == n.name) && !(l.toNode == n.name)) }

/-- The `enabled = False` branch of `_update_enabled` (lines
1161-1168): collect every node whose name starts with "BR_", then
remove each of them. -/
def disableBlenrose (nt : NodeTree) : NodeTree :=
  let nodesToRemove := nt.nodes.filter (fun n => inBRNamespace n.name)
  nodesToRemove.foldl removeNodeFromTree nt

/-- The texture write of the auto-fill loop (lines 691-695): overwrite
only when `update_existing` is set or the current image is empty. -/
def fillTex (upd : Bool) (cur img : Option Nat) : Option Nat :=
  if upd || cur.isNone then img else cur

/-- The UV write of the auto-fill loop (lines 697-709): when a UV map
name was detected, scan the UV enum items for the first whose
identifier or display name matches and store its identifier; no enum
match (or no detected name) leaves the field alone.  Note the source
performs this write without consulting `update_existing`. -/
def fillUv (items : List (String × String × String)) (cur : String)
    (uvName : Option String) : String :=
  match uvName with
  | none => cur
  | some nm =>
    match items.find? (fun it => it.1 == nm || it.2.1 == nm) with
    | some it => it.1
    | none => cur

/-- One iteration of the auto-fill loop of
`_auto_fill_textures_from_node_tree` (lines 687-709) for a detected
channel entry `(ch, img, uvName)`: the channel name selects the texture
and UV properties through `texture_prop_map` / `uv_prop_map`; unknown
channel names touch nothing. -/
def applyDetectedChannel (items : List (String × String × String))
    (upd : Bool) (s : Settings) (ch : String) (img : Option Nat)
    (uvName : Option String) : Settings :=
  match ch with
  | "diffuse" =>
      { s with diffuse_tex := fillTex upd s.diffuse_tex img,
               diffuse_uv := fillUv items s.diffuse_uv uvName }
  | "lightmap" =>
      { s with lightmap_tex := fillTex upd s.lightmap_tex img,
               lightmap_uv := fillUv items s.lightmap_uv uvName }
  | "specular" =>
      { s with specular_tex := fillTex upd s.specular_tex img,
               specular_uv := fillUv items s.specular_uv uvName }
  | "normal" =>
      { s with normal_tex := fillTex upd s.normal_tex img,
               normal_uv := fillUv items s.normal_uv uvName }
  | "detail" =>
      { s with detail_tex := fillTex upd s.detail_tex img,
               detail_uv := fillUv items s.detail_uv uvName }
  | "macro_overlay" =>
      { s with overlay_tex := fillTex upd s.overlay_tex img,
               overlay_uv := fillUv items s.overlay_uv uvName }
  | "environment" =>
      { s with environment_tex := fillTex upd s.environment_tex img,
               environment_uv := fillUv items s.environment_uv uvName }
  | "decal" =>
      { s with decal_tex := fillTex upd s.decal_tex img,
               decal_uv := fillUv items s.decal_uv uvName }
  | "transparent" =>
      { s with transparent_tex := fillTex upd s.transparent_tex img,
               transparent_uv := fillUv items s.transparent_uv uvName }
  | "noise" =>
      { s with noise_tex := fillTex upd s.noise_tex img,
               noise_uv := fillUv items s.noise_uv uvName }
  | _ => s

/-- `_auto_fill_textures_from_node_tree` applied to an already-computed
detection result (the detection itself is a read-only graph scan; the
claims concern this write phase).  `upd` is `update_existing`:
`false` is the fill-only mode used on the disabled-to-enabled
transition, `true` the sync mode.  The surrounding suppression-set
add/discard leaves the set unchanged on exit and is modelled in
`updateAllBlenroseNodes`'s `suppressed` argument. -/
def autoFillFromDetected (items : List (String × String × String))
    (upd : Bool) (detected : List (String × Option Nat × Option String))
    (s : Settings) : Settings :=
  detected.foldl (fun t e => applyDetectedChannel items upd t e.1 e.2.1 e.2.2) s

/-- `MATERIAL_SUBCLASSES` (lines 232-420): the fixed per-class subclass
tables, each row `(identifier, display name, description)`. -/
def MATERIAL_SUBCLASSES : List (String × List (String × String × String)) :=
  [ ("ADVERTISEMENT", [("DEFAULT", "default", "")]),
    ("ANIMATED",
      [("DEFAULT", "default", ""), ("FLAG", "flag", ""),
       ("SHRUB", "shrub", ""), ("TREE", "tree", "")]),
    ("BASIC", [("DEFAULT", "default", "")]),
    ("BUILDING",
      [("CEILINGLOCAL", "ceilinglocal", ""), ("DEFAULT", "default", ""),
       ("INTERIORCUBE", "interiorcube", "")]),
    ("CHARACTER",
      [("ALPHA", "alpha", ""), ("CAC", "cac", ""),
       ("CLOTH_ROPA", "cloth_ropa", ""),
       ("CLOTH_STAMP_ROPA", "cloth_stamp_ropa", ""),
       ("CLOTH_STAMP", "cloth_stamp", ""), ("CLOTH", "cloth", ""),
       ("DEFAULT_CLOTH_ROPA", "default_cloth_ropa", ""),
       ("DEFAULT_CLOTH", "default_cloth", ""),
       ("DEFAULT_HAIR_ROPA", "default_hair_ropa", ""),
       ("DEFAULT_HAIR", "default_hair", ""),
       ("DEFAULT_HOM", "default_hom", ""),
       ("DEFAULT_LIGHT", "default_light", ""),
       ("DEFAULT_SKATEBOARD", "default_skateboard", ""),
       ("DEFAULT_SKIN", "default_skin", ""), ("DEFAULT", "default", ""),
       ("FACE", "face", ""), ("HAIR_ROPA", "hair_ropa", ""),
       ("HAIR", "hair", ""), ("LEATHER", "leather", ""),
       ("LIVINGWORLD_DYNAMICOBJ", "livingworld_dynamicobj", ""),
       ("LIVINGWORLD_PEDESTRIANS_STAMP", "livingworld_pedestrians_stamp", ""),
       ("LIVINGWORLD_PEDESTRIANS", "livingworld_pedestrians", ""),
       ("LIVINGWORLD_VEHICLES_GLASS", "livingworld_vehicles_glass", ""),
       ("LIVINGWORLD_VEHICLES", "livingworld_vehicles", ""),
       ("LIVINGWORLD", "livingworld", ""), ("SHIFT", "shift", ""),
       ("SKIN", "skin", "")]),
    ("CHARATTRIBUTES", [("DEFAULT", "default", "")]),
    ("DEFAULTENVIRONMENT",
      [("DEFAULT", "default", ""), ("TRANSPARENT", "transparent", "")]),
    ("DMOATTRIBUTES", [("DEFAULT", "default", "")]),
    ("DYNAMICOBJECT",
      [("ALPHATEST", "alphatest", ""), ("DEFAULT", "default", "")]),
    ("ENVATTRIBUTES", [("DEFAULT", "default", "")]),
    ("ENVIRONMENT",
      [("DECAL_SIMPLE", "decal_simple", ""),
       ("DECAL_TILEABLE_SIMPLE", "decal_tileable_simple", ""),
       ("DECAL_TILEABLE", "decal_tileable", ""), ("DECAL", "decal", ""),
       ("DECAL2", "decal2", ""), ("DEFAULT", "default", ""),
       ("REFLECTIVE_SIMPLE", "reflective_simple", ""),
       ("REFLECTIVE_TRANS", "reflective_trans", ""),
       ("REFLECTIVE", "reflective", ""),
       ("TRANSPARENT", "transparent", "")]),
    ("ENVIRONMENTPARK",
      [("ALPHATEST", "alphatest", ""), ("DECAL", "decal", ""),
       ("DIFFUSE", "diffuse", "")]),
    ("ENVIRONMENTSIMPLE",
      [("ALPHATEST", "alphatest", ""), ("BACKGROUND", "background", ""),
       ("DEFAULT", "default", ""), ("DIFFUSE", "diffuse", "")]),
    ("FOG",
      [("DEFAULT", "default", ""), ("FOG_BACKUP", "fog_backup", ""),
       ("FOG_BIGEVENT", "fog_bigevent", ""), ("FOG_CAS", "fog_cas", ""),
       ("FOG_COOL", "fog_cool", ""), ("FOG_DARK", "fog_dark", ""),
       ("FOG_DEF_FAR", "fog_def_far", ""),
       ("FOG_DEFAULT", "fog_default", ""),
       ("FOG_FEMAIN", "fog_femain", ""),
       ("FOG_FINANCIAL", "fog_financial", ""),
       ("FOG_HAZE", "fog_haze", ""), ("FOG_INSIDE", "fog_inside", ""),
       ("FOG_LIGHT", "fog_light", ""), ("FOG_OLDTOWN", "fog_oldtown", ""),
       ("FOG_PROJECTS", "fog_projects", ""), ("FOG_REZ", "fog_rez", ""),
       ("FOG_SLAPPY", "fog_slappy", ""),
       ("FOG_SLAPPYWAREHOUSE", "fog_slappywarehouse", ""),
       ("FOG_SOHO", "fog_soho", ""),
       ("FOG_TRICKGUIDE", "fog_trickguide", ""),
       ("FOG_WARM", "fog_warm", ""),
       ("FOG_WATERFRONT", "fog_waterfront", "")]),
    ("GLARE", [("DEFAULT", "default", "")]),
    ("GODRAY",
      [("DEFAULT", "default", ""), ("SPOTLIGHT", "spotlight", "")]),
    ("INCANDESCENT",
      [("BACKLIT", "backlit", ""),
       ("BACKLITUVSCROLL", "backlituvscroll", ""),
       ("DEFAULT", "default", ""), ("TRANSPARENT", "transparent", ""),
       ("VIDEOSCREEN", "videoscreen", "")]),
    ("NAMEMAP", [("DEFAULT", "default", "")]),
    ("OCEAN",
      [("DEFAULT", "default", ""), ("REFLECTION", "reflection", "")]),
    ("PROXYWORLD", [("DEFAULT", "default", "")]),
    ("SKY",
      [("DEFAULT", "default", ""), ("SKY_70S", "sky_70s", ""),
       ("SKY_BKUP1", "sky_bkup1", ""), ("SKY_BKUP2", "sky_bkup2", ""),
       ("SKY_BKUP3", "sky_bkup3", ""),
       ("SKY_CREATURE", "sky_creature", ""),
       ("SKY_DANNY", "sky_danny", ""), ("SKY_DARK", "sky_dark", ""),
       ("SKY_DEFAULT", "sky_default", ""), ("SKY_FE2", "sky_fe2", ""),
       ("SKY_FEMAIN", "sky_femain", ""), ("SKY_FESHIP", "sky_feship", ""),
       ("SKY_FESTART", "sky_festart", ""),
       ("SKY_FINANCIAL", "sky_financial", ""),
       ("SKY_LIGHT", "sky_light", ""), ("SKY_OLDTOWN", "sky_oldtown", ""),
       ("SKY_PROJECTS", "sky_projects", ""), ("SKY_PURE", "sky_pure", ""),
       ("SKY_REZ", "sky_rez", ""), ("SKY_SLAPPY", "sky_slappy", ""),
       ("SKY_SOHO", "sky_soho", ""), ("SKY_SVM", "sky_svm", ""),
       ("SKY_WATERFRONT", "sky_waterfront", "")]),
    ("TERRAIN",
      [("DECAL", "decal", ""), ("DEFAULT", "default", "")]),
    ("TRAFFICLIGHT",
      [("DEFAULT", "default", ""), ("ONE", "one", ""), ("TWO", "two", "")]),
    ("TREE", [("DEFAULT", "default", "")]),
    ("VEHICLE",
      [("DEFAULT", "default", ""), ("LIGHT", "light", ""),
       ("LOD01", "lod01", "")]),
    ("VISUALINDICATOR", [("DEFAULT", "default", "")]),
    ("WATER",
      [("ALPHA", "alpha", ""), ("DEFAULT", "default", ""),
       ("FLOWING", "flowing", ""), ("FLOWINGALPHA", "flowingalpha", ""),
       ("SKATEPARK_ALPHA", "skatepark_alpha", ""),
       ("SKATEPARK", "skatepark", "")]) ]

def MATERIAL_SUBCLASS_FALLBACK : List (String × String × String) :=
  [("DEFAULT", "default", "")]

/-- `material_subclass_items` (lines 1176-1188): the enum items offered
for `material_subclass` are the current class's table, with a safety
fallback when the class key is absent (or empty). -/
def material_subclass_items (s : Settings) : List (String × String × String) :=
  match MATERIAL_SUBCLASSES.find? (fun p => p.1 == s.material_class) with
  | some p => p.2
  | none => MATERIAL_SUBCLASS_FALLBACK

/-- Writing `material_class`: the EnumProperty carries no `update`
callback (lines 1206-1210), so assignment only stores the identifier;
in particular the stored subclass index is untouched. -/
def setMaterialClass (s : Settings) (c : String) : Settings :=
  { s with material_class := c }

/-- Host behavior: a Python read of the `material_subclass`
EnumProperty (as in `getattr(settings, "material_subclass", 0)` at
line 1926) yields the identifier *string* of the stored selection —
the indexed row of the current items list when the stored index is in
range, and the empty string (with a console warning) when it is out of
range. -/
def readMaterialSubclass (s : Settings) : String :=
  match (material_subclass_items s)[s.material_subclass_index]? with
  | some row => row.1
  | none => ""

/-- The subclass-name resolution of `_extract_blenrose_material_data`
(lines 1921-1940): start from the literal `"default"`; when the class
key exists, read the property (a string, `readMaterialSubclass`), take
the `isinstance(str)` branch, which scans the class table for a row
whose identifier equals the read value and otherwise falls back to
index 0 through the `for`-`else`; the resulting index, when in range,
selects the row identifier.  The initial `"default"` therefore
survives only when the class key is absent or its table is empty. -/
def resolveSubclassName (s : Settings) : String :=
  match MATERIAL_SUBCLASSES.find? (fun p => p.1 == s.material_class) with
  | none => "default"
  | some p =>
    let v := readMaterialSubclass s
    let idx :=
      match p.2.findIdx? (fun row => row.1 == v) with
      | some i => i
      | none => 0
    match p.2[idx]? with
    | some row => row.1
    | none => "default"

/-- The scalar part of one exported material document entry.  The
textures dictionary is omitted: building it needs the host's image
filepath and live scene UV-map resolution, and no claim concerns it. -/
structure MaterialData where
  material_name : String
  enabled : Bool
  material_class : String
  material_subclass : String
  notes : String
  detail_normal_uv_scale : Rat
  overlay_opacity : Rat
  overlay_uv_scale : Rat
  embedded_decal : Rat
  physics_surface : String
  audio_surface : String
  surface_pattern : String
deriving Repr, DecidableEq

/-- `_extract_blenrose_material_data` (lines 1891-1964) restricted to
the fields above: `material_name` is the lowercased
"class.subclass" key (line 1943). -/
def extract_blenrose_material_data (s : Settings) : MaterialData :=
  let subclassName := resolveSubclassName s
  { material_name := s.material_class.toLower ++ "." ++ subclassName.toLower,
    enabled := s.enabled,
    material_class := s.material_class,
    material_subclass := subclassName,
    notes := s.notes,
    detail_normal_uv_scale := s.detail_normal_uv_scale,
    overlay_opacity := s.overlay_opacity,
    overlay_uv_scale := s.overlay_uv_scale,
    embedded_decal := s.embedded_decal,
    physics_surface := s.physics_surface,
    audio_surface := s.audio_surface,
    surface_pattern := s.surface_pattern }

/-- The coordinate remap applied to world-space bounding-box corners in
`_calculate_bbox_for_objects` (lines 1762-1766):
`psg_x = corner.x; psg_y = corner.z; psg_z = -corner.y`. -/
def psgOfCorner (c : Rat × Rat × Rat) : Rat × Rat × Rat :=
  (c.1, c.2.2, -c.2.1)

/-- The identical remap applied to world-space curve points in
`_extract_splines_from_scene` (lines 1817-1821, 1831-1834,
1844-1847). -/
def psgOfSplinePoint (c : Rat × Rat × Rat) : Rat × Rat × Rat :=
  (c.1, c.2.2, -c.2.1)

structure BBox where
  lo : Rat × Rat × Rat
  hi : Rat × Rat × Rat
deriving Repr, DecidableEq

def foldMin (x : Rat) (l : List Rat) : Rat := l.foldl min x

def foldMax (x : Rat) (l : List Rat) : Rat := l.foldl max x

/-- `_calculate_bbox_from_points` (lines 1726-1741): `None` on an empty
list, else the componentwise min/max corners. -/
def calculate_bbox_from_points (pts : List (Rat × Rat × Rat)) : Option BBox :=
  match pts with
  | [] => none
  | p :: rest =>
    some { lo := (foldMin p.1 (rest.map (fun q => q.1)),
                  foldMin p.2.1 (rest.map (fun q => q.2.1)),
                  foldMin p.2.2 (rest.map (fun q => q.2.2))),
           hi := (foldMax p.1 (rest.map (fun q => q.1)),
                  foldMax p.2.1 (rest.map (fun q => q.2.1)),
                  foldMax p.2.2 (rest.map (fun q => q.2.2))) }

/-- `_calculate_bbox_for_objects` (lines 1744-1781): each mesh object
contributes its 8 world-space bound-box corners; every corner is
remapped by `psgOfCorner` and the running min/max (started at
infinity in the source) is the min/max over all remapped corners,
`None` when there are none. -/
def calculate_bbox_for_objects (objs : List (List (Rat × Rat × Rat))) : Option BBox :=
  calculate_bbox_from_points (objs.flatMap (fun corners => corners.map psgOfCorner))

/-- One spline of a Blender curve datablock, with its control points
already taken to world space (the source multiplies each `co` by the
object's `matrix_world` before remapping).  POLY and NURBS splines
read `points`, BEZIER splines read `bezier_points`. -/
structure CurveSpline where
  stype : String
  points : List (Rat × Rat × Rat)
  bezier_points : List (Rat × Rat × Rat)
  use_cyclic_u : Bool
deriving Repr, DecidableEq

structure CurveObject where
  name : String
  objType : String
  visible : Bool
  splines : List CurveSpline
deriving Repr, DecidableEq

structure SplineRec where
  name : String
  points : List (Rat × Rat × Rat)
  is_closed : Bool
  stype : String
  bbox : Option BBox
deriving Repr, DecidableEq

/-- The per-spline point sampling of `_extract_splines_from_scene`
(lines 1808-1849): POLY and NURBS splines map their `points`, BEZIER
splines their `bezier_points`, through the coordinate remap; any other
representation leaves the list empty.  (The source guards each branch
with the Python truthiness of the point collection; an empty
collection falls through with `points = []`, which mapping over the
empty list reproduces.) -/
def splinePSGPoints (sp : CurveSpline) : List (Rat × Rat × Rat) :=
  if sp.stype == "POLY" && !sp.points.isEmpty then
    sp.points.map psgOfSplinePoint
  else if sp.stype == "BEZIER" && !sp.bezier_points.isEmpty then
    sp.bezier_points.map psgOfSplinePoint
  else if sp.stype == "NURBS" && !sp.points.isEmpty then
    sp.points.map psgOfSplinePoint
  else []

/-- The record appended for a kept spline (lines 1853-1860). -/
def mkSplineRec (o : CurveObject) (sp : CurveSpline) : SplineRec :=
  let pts := splinePSGPoints sp
  { name := o.name, points := pts, is_closed := sp.use_cyclic_u,
    stype := sp.stype, bbox := calculate_bbox_from_points pts }

/-- `_extract_splines_from_scene` (lines 1797-1862): visible curve
objects only; for each spline of each such object, sample its points
and append a record only when at least 2 points were produced. -/
def extract_splines_from_scene (objs : List CurveObject) : List SplineRec :=
  let curveObjects := objs.filter (fun o => o.objType == "CURVE" && o.visible)
  curveObjects.foldl (fun acc o =>
    o.splines.foldl (fun acc2 sp =>
      if 2 ≤ (splinePSGPoints sp).length then acc2 ++ [mkSplineRec o sp]
      else acc2) acc) []

/-! ## Claim theorems -/

/-- C6: a material whose identity is in the process-wide suppression
set makes the synchronizer's update entry point a no-op: it returns
immediately and the shading graph is unchanged. -/
theorem C6_suppressed_update_noop (supp : List Nat) (m : Nat)
    (s : Settings) (nt : NodeTree) (h : m ∈ supp) :
    updateAllBlenroseNodes supp m s nt = nt := by
  simp [updateAllBlenroseNodes, h]

theorem C6_suppressed_update_noop_witness :
    updateAllBlenroseNodes [7] 7 {} ⟨[], []⟩ = ⟨[], []⟩ :=
  C6_suppressed_update_noop [7] 7 {} ⟨[], []⟩ (by decide)

/-- C8: the export coordinate remap applied to bounding-box corners
and to curve points sends a source point (x, y, z) to (x, z, -y); in
particular (1, 2, 3) maps to (1, 3, -2), and a single-corner object
yields that degenerate bounding box. -/
theorem C8_coordinate_remap :
    (∀ x y z : Rat, psgOfCorner (x, y, z) = (x, z, -y) ∧
      psgOfSplinePoint (x, y, z) = (x, z, -y)) ∧
    psgOfCorner (1, 2, 3) = (1, 3, -2) ∧
    calculate_bbox_for_objects [[(1, 2, 3)]] =
      some { lo := (1, 3, -2), hi := (1, 3, -2) } := by
  refine ⟨fun x y z => ⟨rfl, rfl⟩, by decide, by decide⟩

/-- C9: every exported material document entry's material_name is the
lowercased class identifier, a dot, and the lowercased subclass
identifier of that entry. -/
theorem C9_material_name_key (s : Settings) :
    (extract_blenrose_material_data s).material_name =
      (extract_blenrose_material_data s).material_class.toLower ++ "." ++
      (extract_blenrose_material_data s).material_subclass.toLower := rfl

/-- C1 counterexample: a material whose graph holds a single
user-authored node (and no critical BR_ nodes) loses that node during
synchronization, because the triggered rebuild clears every node of
the tree; so synchronization does not leave nodes outside the reserved
namespace untouched. -/
theorem C1_counterexample :
    ¬ ((updateAllBlenroseNodes [] 0 {}
          ⟨[{ name := "UserNode", ntype := "TEX_IMAGE" }], []⟩).nodes.filter
          (fun n => !(inBRNamespace n.name))
        = (⟨[{ name := "UserNode", ntype := "TEX_IMAGE" }], []⟩ : NodeTree).nodes.filter
          (fun n => !(inBRNamespace n.name))) := by
  decide

lemma foldl_removeNode_nodes (l : List Node) (nt : NodeTree) :
    (l.foldl removeNodeFromTree nt).nodes = l.foldl List.erase nt.nodes := by
  induction l generalizing nt with
  | nil => rfl
  | cons a t ih =>
    rw [List.foldl_cons, List.foldl_cons, ih]
    rfl

/-- C5: disabling a previously-enabled material removes every node
whose name carries the reserved "BR_" prefix and leaves the
non-reserved nodes exactly as they were (same nodes, same data, same
relative order).  The uniqueness hypothesis is Blender's guarantee
that node names inside one tree are unique. -/
theorem C5_disable_clears_namespace (nt : NodeTree)
    (h : (nt.nodes.map Node.name).Nodup) :
    (disableBlenrose nt).nodes =
      nt.nodes.filter (fun n => !(inBRNamespace n.name)) := by
  have hnd : nt.nodes.Nodup := List.Nodup.of_map Node.name h
  unfold disableBlenrose
  rw [foldl_removeNode_nodes, ← List.diff_eq_foldl, hnd.diff_eq_filter]
  apply List.filter_congr
  intro a ha
  by_cases hb : inBRNamespace a.name
  · simp [List.mem_filter, ha, hb]
  · simp [List.mem_filter, hb]

theorem C5_disable_clears_namespace_witness :
    (disableBlenrose
        ⟨[{ name := "BR_BSDF", ntype := "BSDF_PRINCIPLED" },
          { name := "UserNode", ntype := "TEX_IMAGE" },
          { name := "BR_Emission", ntype := "EMISSION" }],
         [{ fromNode := "BR_BSDF", fromSocket := "BSDF",
            toNode := "UserNode", toSocket := "X" }]⟩).nodes =
      (⟨[{ name := "BR_BSDF", ntype := "BSDF_PRINCIPLED" },
         { name := "UserNode", ntype := "TEX_IMAGE" },
         { name := "BR_Emission", ntype := "EMISSION" }],
        [{ fromNode := "BR_BSDF", fromSocket := "BSDF",
           toNode := "UserNode", toSocket := "X" }]⟩ : NodeTree).nodes.filter
        (fun n => !(inBRNamespace n.name)) :=
  C5_disable_clears_namespace _ (by decide)

lemma subclass_row_mem (l : List (String × String × String)) (i : Nat)
    (d : String) (h : i < l.length) :
    (match l[i]? with | some row => row.1 | none => d) ∈
      l.map (fun r => r.1) := by
  rw [List.getElem?_eq_getElem h]
  exact List.mem_map_of_mem _ (List.getElem_mem h)

/-- C4 counterexample: a material classed CHARACTER with subclass index
26 (identifier "SKIN", a valid member) whose class is switched to
ENVIRONMENTPARK keeps the stored index 26 — no reset to the class's
default/first subclass happens — and 26 exceeds the 3-entry
ENVIRONMENTPARK table, so the subclass property now reads as the empty
string, which is not a member of the class's table under either its
identifiers or its display names.  Only the export-time resolution
repairs the value, mapping the invalid read to the class's first
subclass "ALPHATEST"; the stored selection itself stays invalid. -/
theorem C4_counterexample :
    (setMaterialClass
        { material_class := "CHARACTER", material_subclass_index := 26 }
        "ENVIRONMENTPARK").material_subclass_index = 26 ∧
    (material_subclass_items
        (setMaterialClass
          { material_class := "CHARACTER", material_subclass_index := 26 }
          "ENVIRONMENTPARK")).length = 3 ∧
    readMaterialSubclass
        (setMaterialClass
          { material_class := "CHARACTER", material_subclass_index := 26 }
          "ENVIRONMENTPARK") = "" ∧
    ¬ ((material_subclass_items
          (setMaterialClass
            { material_class := "CHARACTER", material_subclass_index := 26 }
            "ENVIRONMENTPARK")).any (fun r =>
        r.1 == readMaterialSubclass
            (setMaterialClass
              { material_class := "CHARACTER", material_subclass_index := 26 }
              "ENVIRONMENTPARK") ||
        r.2.1 == readMaterialSubclass
            (setMaterialClass
              { material_class := "CHARACTER", material_subclass_index := 26 }
              "ENVIRONMENTPARK")) = true) ∧
    resolveSubclassName
        (setMaterialClass
          { material_class := "CHARACTER", material_subclass_index := 26 }
          "ENVIRONMENTPARK") = "ALPHATEST" := by
  refine ⟨rfl, by decide, by decide, by decide, by decide⟩

/-- C4 amended: the subclass items offered for selection are always the
current class's fixed table, so any stored selection whose index is in
range reads as a member of that table; but changing material_class
performs no reset: the stored index is kept verbatim, and when it
falls out of range for the new class's table the property reads as the
empty string, which belongs to no table — the invariant fails on the
settings record itself.  The export-time resolution then repairs the
value: the empty read matches no identifier, the for-else falls back
to index 0, and the exported subclass is always a member of the
current class's table (its first subclass for an invalid selection;
see the counterexample). -/
theorem C4_amended :
    (∀ s : Settings,
      s.material_subclass_index < (material_subclass_items s).length →
      readMaterialSubclass s ∈ (material_subclass_items s).map (fun r => r.1)) ∧
    (∀ (s : Settings) (c : String),
      (setMaterialClass s c).material_subclass_index = s.material_subclass_index) ∧
    (∀ s : Settings,
      (MATERIAL_SUBCLASSES.find? (fun p => p.1 == s.material_class)).isSome →
      resolveSubclassName s ∈ (material_subclass_items s).map (fun r => r.1)) := by
  refine ⟨?_, fun s c => rfl, ?_⟩
  · intro s h
    unfold readMaterialSubclass
    exact subclass_row_mem _ _ "" h
  · intro s h1
    cases hf : MATERIAL_SUBCLASSES.find? (fun p => p.1 == s.material_class) with
    | none => rw [hf] at h1; simp at h1
    | some p =>
      have hpmem : p ∈ MATERIAL_SUBCLASSES := List.mem_of_find?_eq_some hf
      have hlen : 0 < p.2.length := by
        have hall : ∀ q ∈ MATERIAL_SUBCLASSES, 0 < q.2.length := by decide
        exact hall p hpmem
      unfold resolveSubclassName material_subclass_items
      rw [hf]
      have hlt : (match p.2.findIdx?
            (fun row => row.1 == readMaterialSubclass s) with
          | some i => i
          | none => 0) < p.2.length := by
        cases hidx : p.2.findIdx? (fun row => row.1 == readMaterialSubclass s) with
        | some i => exact (List.findIdx?_eq_some_iff_findIdx_eq.mp hidx).1
        | none => exact hlen
      exact subclass_row_mem p.2 _ "default" hlt

theorem C4_amended_witness :
    readMaterialSubclass
        { material_class := "BUILDING", material_subclass_index := 2 } ∈
      (material_subclass_items
          { material_class := "BUILDING", material_subclass_index := 2 }).map
        (fun r => r.1) :=
  C4_amended.1 _ (by decide)

/-- The ten texture-channel accessors, in `texture_prop_map` order. -/
def texFields : List (Settings → Option Nat) :=
  [fun s => s.diffuse_tex, fun s => s.lightmap_tex, fun s => s.specular_tex,
   fun s => s.normal_tex, fun s => s.detail_tex, fun s => s.overlay_tex,
   fun s => s.environment_tex, fun s => s.decal_tex,
   fun s => s.transparent_tex, fun s => s.noise_tex]

/-- Every texture channel that already holds an image in `s` holds the
same image in `t`. -/
def TexPreserved (s t : Settings) : Prop :=
  ∀ f ∈ texFields, (f s).isSome = true → f t = f s

lemma fillTex_of_isSome (img : Option Nat) {cur : Option Nat}
    (h : cur.isSome = true) : fillTex false cur img = cur := by
  cases cur with
  | none => simp at h
  | some a => simp [fillTex]

lemma applyDetectedChannel_texPreserved (items : List (String × String × String))
    (s : Settings) (ch : String) (img : Option Nat) (uvName : Option String) :
    TexPreserved s (applyDetectedChannel items false s ch img uvName) := by
  intro f hf
  simp only [texFields, List.mem_cons, List.not_mem_nil, or_false] at hf
  rcases hf with rfl | rfl | rfl | rfl | rfl | rfl | rfl | rfl | rfl | rfl <;>
    (intro h;
     unfold applyDetectedChannel;
     split <;> simp [fillTex_of_isSome img h])

lemma texPreserved_trans {s t u : Settings}
    (h1 : TexPreserved s t) (h2 : TexPreserved t u) : TexPreserved s u := by
  intro f hf h
  have e1 := h1 f hf h
  have h2s : (f t).isSome = true := by rw [e1]; exact h
  rw [h2 f hf h2s, e1]

lemma autoFill_texPreserved (items : List (String × String × String))
    (detected : List (String × Option Nat × Option String)) (s : Settings) :
    TexPreserved s (autoFillFromDetected items false detected s) := by
  induction detected generalizing s with
  | nil => intro f hf h; rfl
  | cons e rest ih =>
    exact texPreserved_trans
      (applyDetectedChannel_texPreserved items s e.1 e.2.1 e.2.2) (ih _)

/-- C3 counterexample: in fill-only mode, a UV-source field already
holding the choice "UVB" is overwritten with the detected "UVA" — so
the auto-fill operation does overwrite populated UV-source fields. -/
theorem C3_counterexample :
    (autoFillFromDetected [("UVA", "UVA", ""), ("UVB", "UVB", "")] false
        [("diffuse", some 5, some "UVA")]
        { diffuse_uv := "UVB" }).diffuse_uv = "UVA" ∧
    ({ diffuse_uv := "UVB" } : Settings).diffuse_uv = "UVB" :=
  ⟨by decide, rfl⟩

/-- C3 amended: in fill-only mode the auto-fill never overwrites a
texture field that already holds an image (only empty texture fields
are populated); UV-source fields, however, are written with the
detected UV whenever the detected name matches a UV enum entry,
regardless of mode. -/
theorem C3_amended :
    (∀ (items : List (String × String × String))
       (detected : List (String × Option Nat × Option String)) (s : Settings),
       TexPreserved s (autoFillFromDetected items false detected s)) ∧
    (∀ (items : List (String × String × String)) (s : Settings)
       (img : Option Nat) (nm : String) (row : String × String × String),
       items.find? (fun it => it.1 == nm || it.2.1 == nm) = some row →
       (autoFillFromDetected items false [("diffuse", img, some nm)] s).diffuse_uv
         = row.1) := by
  constructor
  · exact autoFill_texPreserved
  · intro items s img nm row h
    show (applyDetectedChannel items false s "diffuse" img (some nm)).diffuse_uv = row.1
    simp [applyDetectedChannel, fillUv, h]

theorem C3_amended_witness :
    (autoFillFromDetected [("UVA", "UVA", "")] false
        [("diffuse", some 9, some "UVA")]
        { diffuse_tex := some 7 }).diffuse_tex =
      ({ diffuse_tex := some 7 } : Settings).diffuse_tex :=
  C3_amended.1 _ _ _ (fun s => s.diffuse_tex) (List.Mem.head _) (by decide)

lemma splines_foldl_eq_filter_map (o : CurveObject) (acc : List SplineRec)
    (spl : List CurveSpline) :
    spl.foldl (fun acc2 sp =>
        if 2 ≤ (splinePSGPoints sp).length then acc2 ++ [mkSplineRec o sp]
        else acc2) acc
      = acc ++ (spl.filter
          (fun sp => decide (2 ≤ (splinePSGPoints sp).length))).map
          (mkSplineRec o) := by
  induction spl generalizing acc with
  | nil => simp
  | cons sp rest ih =>
    by_cases h : 2 ≤ (splinePSGPoints sp).length <;>
      simp [List.foldl_cons, List.filter_cons, h, ih]

lemma objects_foldl_eq_flatMap (objs : List CurveObject) (acc : List SplineRec) :
    objs.foldl (fun acc o =>
        o.splines.foldl (fun acc2 sp =>
          if 2 ≤ (splinePSGPoints sp).length then acc2 ++ [mkSplineRec o sp]
          else acc2) acc) acc
      = acc ++ objs.flatMap (fun o =>
          (o.splines.filter
            (fun sp => decide (2 ≤ (splinePSGPoints sp).length))).map
            (mkSplineRec o)) := by
  induction objs generalizing acc with
  | nil => simp
  | cons o rest ih =>
    rw [List.foldl_cons, splines_foldl_eq_filter_map, ih,
      List.flatMap_cons, List.append_assoc]

/-- C10: the extracted spline list consists of exactly those splines of
visible curve objects whose sampled point list has at least 2 points
(each wrapped with its bounding box and metadata); and any spline of an
unsupported representation type samples to the empty point list, hence
is silently omitted. -/
theorem C10_spline_inclusion :
    (∀ objs : List CurveObject,
      extract_splines_from_scene objs =
        (objs.filter (fun o => o.objType == "CURVE" && o.visible)).flatMap
          (fun o => (o.splines.filter
              (fun sp => decide (2 ≤ (splinePSGPoints sp).length))).map
              (mkSplineRec o))) ∧
    (∀ sp : CurveSpline, sp.stype ≠ "POLY" → sp.stype ≠ "BEZIER" →
      sp.stype ≠ "NURBS" → splinePSGPoints sp = []) := by
  constructor
  · intro objs
    unfold extract_splines_from_scene
    rw [objects_foldl_eq_flatMap]
    simp
  · intro sp h1 h2 h3
    unfold splinePSGPoints
    simp [h1, h2, h3]

theorem C10_spline_inclusion_witness :
    splinePSGPoints
        { stype := "WEIRD", points := [(0, 0, 0), (1, 1, 1)],
          bezier_points := [], use_cyclic_u := false } = [] ∧
    extract_splines_from_scene
        [{ name := "PathA", objType := "CURVE", visible := true,
           splines :=
             [{ stype := "POLY", points := [(0, 0, 0), (1, 2, 3)],
                bezier_points := [], use_cyclic_u := false },
              { stype := "POLY", points := [(5, 5, 5)],
                bezier_points := [], use_cyclic_u := true }] }] =
      [{ name := "PathA", points := [(0, 0, 0), (1, 3, -2)],
         is_closed := false, stype := "POLY",
         bbox := some { lo := (0, 0, -2), hi := (1, 3, 0) } }] := by
  refine ⟨C10_spline_inclusion.2 _ (by decide) (by decide) (by decide), ?_⟩
  rw [C10_spline_inclusion.1]
  decide

lemma patchNode_name (s : Settings) (fl : Bool) (n : Node) :
    (patchNode s fl n).name = n.name := by
  unfold patchNode
  split <;> (try split) <;> rfl

lemma patchNode_ntype (s : Settings) (fl : Bool) (n : Node) :
    (patchNode s fl n).ntype = n.ntype := by
  unfold patchNode
  split <;> (try split) <;> rfl

lemma patchNode_of_not_inBR (s : Settings) (fl : Bool) (n : Node)
    (h : inBRNamespace n.name = false) : patchNode s fl n = n := by
  unfold patchNode
  split <;> first
    | rfl
    | (rename_i heq; rw [heq] at h; exact absurd h (by decide))

lemma patchNode_at_diffuse_tex (s : Settings) (fl : Bool) (n : Node)
    (heq : n.name = "BR_DiffuseTex") :
    patchNode s fl n =
      if n.ntype == "TEX_IMAGE" then { n with image := s.diffuse_tex } else n := by
  rw [patchNode.eq_def, heq]
  rfl

lemma patchNode_at_lightmap_tex (s : Settings) (fl : Bool) (n : Node)
    (heq : n.name = "BR_LightmapTex") :
    patchNode s fl n =
      if n.ntype == "TEX_IMAGE" then { n with image := s.lightmap_tex } else n := by
  rw [patchNode.eq_def, heq]
  rfl

lemma patchNode_at_specular_tex (s : Settings) (fl : Bool) (n : Node)
    (heq : n.name = "BR_SpecularTex") :
    patchNode s fl n =
      if n.ntype == "TEX_IMAGE" then { n with image := s.specular_tex } else n := by
  rw [patchNode.eq_def, heq]
  rfl

lemma patchNode_at_normal_tex (s : Settings) (fl : Bool) (n : Node)
    (heq : n.name = "BR_NormalTex") :
    patchNode s fl n =
      if n.ntype == "TEX_IMAGE" then { n with image := s.normal_tex } else n := by
  rw [patchNode.eq_def, heq]
  rfl

lemma patchNode_at_detail_tex (s : Settings) (fl : Bool) (n : Node)
    (heq : n.name = "BR_DetailTex") :
    patchNode s fl n =
      if n.ntype == "TEX_IMAGE" then { n with image := s.detail_tex } else n := by
  rw [patchNode.eq_def, heq]
  rfl

lemma patchNode_at_overlay_tex (s : Settings) (fl : Bool) (n : Node)
    (heq : n.name = "BR_MacroOverlayTex") :
    patchNode s fl n =
      if n.ntype == "TEX_IMAGE" then { n with image := s.overlay_tex } else n := by
  rw [patchNode.eq_def, heq]
  rfl

lemma patchNode_at_environment_tex (s : Settings) (fl : Bool) (n : Node)
    (heq : n.name = "BR_EnvironmentTex") :
    patchNode s fl n =
      if n.ntype == "TEX_IMAGE" then { n with image := s.environment_tex } else n := by
  rw [patchNode.eq_def, heq]
  rfl

lemma patchNode_at_decal_tex (s : Settings) (fl : Bool) (n : Node)
    (heq : n.name = "BR_DecalTex") :
    patchNode s fl n =
      if n.ntype == "TEX_IMAGE" then { n with image := s.decal_tex } else n := by
  rw [patchNode.eq_def, heq]
  rfl

lemma patchNode_at_transparent_tex (s : Settings) (fl : Bool) (n : Node)
    (heq : n.name = "BR_TransparentTex") :
    patchNode s fl n =
      if n.ntype == "TEX_IMAGE" then { n with image := s.transparent_tex } else n := by
  rw [patchNode.eq_def, heq]
  rfl

lemma patchNode_at_noise_tex (s : Settings) (fl : Bool) (n : Node)
    (heq : n.name = "BR_NoiseTex") :
    patchNode s fl n =
      if n.ntype == "TEX_IMAGE" then { n with image := s.noise_tex } else n := by
  rw [patchNode.eq_def, heq]
  rfl

lemma patchNode_at_diffuse_uv (s : Settings) (fl : Bool) (n : Node)
    (heq : n.name = "BR_DiffuseUV") :
    patchNode s fl n =
      if n.ntype == "UVMAP" && s.diffuse_uv != "" then { n with uv_map := s.diffuse_uv }
      else n := by
  rw [patchNode.eq_def, heq]
  rfl

lemma patchNode_at_lightmap_uv (s : Settings) (fl : Bool) (n : Node)
    (heq : n.name = "BR_LightmapUV") :
    patchNode s fl n =
      if n.ntype == "UVMAP" && s.lightmap_uv != "" then { n with uv_map := s.lightmap_uv }
      else n := by
  rw [patchNode.eq_def, heq]
  rfl

lemma patchNode_at_specular_uv (s : Settings) (fl : Bool) (n : Node)
    (heq : n.name = "BR_SpecularUV") :
    patchNode s fl n =
      if n.ntype == "UVMAP" && s.specular_uv != "" then { n with uv_map := s.specular_uv }
      else n := by
  rw [patchNode.eq_def, heq]
  rfl

lemma patchNode_at_normal_uv (s : Settings) (fl : Bool) (n : Node)
    (heq : n.name = "BR_NormalUV") :
    patchNode s fl n =
      if n.ntype == "UVMAP" && s.normal_uv != "" then { n with uv_map := s.normal_uv }
      else n := by
  rw [patchNode.eq_def, heq]
  rfl

lemma patchNode_at_detail_uv (s : Settings) (fl : Bool) (n : Node)
    (heq : n.name = "BR_DetailUV") :
    patchNode s fl n =
      if n.ntype == "UVMAP" && s.detail_uv != "" then { n with uv_map := s.detail_uv }
      else n := by
  rw [patchNode.eq_def, heq]
  rfl

lemma patchNode_at_overlay_uv (s : Settings) (fl : Bool) (n : Node)
    (heq : n.name = "BR_MacroOverlayUV") :
    patchNode s fl n =
      if n.ntype == "UVMAP" && s.overlay_uv != "" then { n with uv_map := s.overlay_uv }
      else n := by
  rw [patchNode.eq_def, heq]
  rfl

lemma patchNode_at_environment_uv (s : Settings) (fl : Bool) (n : Node)
    (heq : n.name = "BR_EnvironmentUV") :
    patchNode s fl n =
      if n.ntype == "UVMAP" && s.environment_uv != "" then { n with uv_map := s.environment_uv }
      else n := by
  rw [patchNode.eq_def, heq]
  rfl

lemma patchNode_at_decal_uv (s : Settings) (fl : Bool) (n : Node)
    (heq : n.name = "BR_DecalUV") :
    patchNode s fl n =
      if n.ntype == "UVMAP" && s.decal_uv != "" then { n with uv_map := s.decal_uv }
      else n := by
  rw [patchNode.eq_def, heq]
  rfl

lemma patchNode_at_transparent_uv (s : Settings) (fl : Bool) (n : Node)
    (heq : n.name = "BR_TransparentUV") :
    patchNode s fl n =
      if n.ntype == "UVMAP" && s.transparent_uv != "" then { n with uv_map := s.transparent_uv }
      else n := by
  rw [patchNode.eq_def, heq]
  rfl

lemma patchNode_at_noise_uv (s : Settings) (fl : Bool) (n : Node)
    (heq : n.name = "BR_NoiseUV") :
    patchNode s fl n =
      if n.ntype == "UVMAP" && s.noise_uv != "" then { n with uv_map := s.noise_uv }
      else n := by
  rw [patchNode.eq_def, heq]
  rfl

lemma patchNode_at_detailMapping (s : Settings) (fl : Bool) (n : Node)
    (heq : n.name = "BR_DetailMapping") :
    patchNode s fl n =
      { n with scale := (s.detail_normal_uv_scale, s.detail_normal_uv_scale, 1) } := by
  rw [patchNode.eq_def, heq]
  rfl

lemma patchNode_at_macroMapping (s : Settings) (fl : Bool) (n : Node)
    (heq : n.name = "BR_MacroMapping") :
    patchNode s fl n =
      { n with scale := (s.overlay_uv_scale, s.overlay_uv_scale, 1) } := by
  rw [patchNode.eq_def, heq]
  rfl

lemma patchNode_at_macroMix (s : Settings) (fl : Bool) (n : Node)
    (heq : n.name = "BR_MacroMix") :
    patchNode s fl n = { n with fac := s.overlay_opacity } := by
  rw [patchNode.eq_def, heq]
  rfl

lemma patchNode_at_mixShader (s : Settings) (fl : Bool) (n : Node)
    (heq : n.name = "BR_MixShader") :
    patchNode s fl n = if fl then n else { n with fac := mkRat 2 100 } := by
  rw [patchNode.eq_def, heq]
  rfl

lemma patchNode_idem (s : Settings) (fl : Bool) (n : Node) :
    patchNode s fl (patchNode s fl n) = patchNode s fl n := by
  conv_lhs => rw [patchNode.eq_def]
  rw [patchNode_name]
  split
  · rename_i heq
    rw [patchNode_ntype, patchNode_at_diffuse_tex s fl n heq]
    by_cases h : (n.ntype == "TEX_IMAGE") = true <;> simp [h]
  · rename_i heq
    rw [patchNode_ntype, patchNode_at_lightmap_tex s fl n heq]
    by_cases h : (n.ntype == "TEX_IMAGE") = true <;> simp [h]
  · rename_i heq
    rw [patchNode_ntype, patchNode_at_specular_tex s fl n heq]
    by_cases h : (n.ntype == "TEX_IMAGE") = true <;> simp [h]
  · rename_i heq
    rw [patchNode_ntype, patchNode_at_normal_tex s fl n heq]
    by_cases h : (n.ntype == "TEX_IMAGE") = true <;> simp [h]
  · rename_i heq
    rw [patchNode_ntype, patchNode_at_detail_tex s fl n heq]
    by_cases h : (n.ntype == "TEX_IMAGE") = true <;> simp [h]
  · rename_i heq
    rw [patchNode_ntype, patchNode_at_overlay_tex s fl n heq]
    by_cases h : (n.ntype == "TEX_IMAGE") = true <;> simp [h]
  · rename_i heq
    rw [patchNode_ntype, patchNode_at_environment_tex s fl n heq]
    by_cases h : (n.ntype == "TEX_IMAGE") = true <;> simp [h]
  · rename_i heq
    rw [patchNode_ntype, patchNode_at_decal_tex s fl n heq]
    by_cases h : (n.ntype == "TEX_IMAGE") = true <;> simp [h]
  · rename_i heq
    rw [patchNode_ntype, patchNode_at_transparent_tex s fl n heq]
    by_cases h : (n.ntype == "TEX_IMAGE") = true <;> simp [h]
  · rename_i heq
    rw [patchNode_ntype, patchNode_at_noise_tex s fl n heq]
    by_cases h : (n.ntype == "TEX_IMAGE") = true <;> simp [h]
  · rename_i heq
    rw [patchNode_ntype, patchNode_at_diffuse_uv s fl n heq]
    by_cases h : (n.ntype == "UVMAP" && s.diffuse_uv != "") = true <;> simp [h]
  · rename_i heq
    rw [patchNode_ntype, patchNode_at_lightmap_uv s fl n heq]
    by_cases h : (n.ntype == "UVMAP" && s.lightmap_uv != "") = true <;> simp [h]
  · rename_i heq
    rw [patchNode_ntype, patchNode_at_specular_uv s fl n heq]
    by_cases h : (n.ntype == "UVMAP" && s.specular_uv != "") = true <;> simp [h]
  · rename_i heq
    rw [patchNode_ntype, patchNode_at_normal_uv s fl n heq]
    by_cases h : (n.ntype == "UVMAP" && s.normal_uv != "") = true <;> simp [h]
  · rename_i heq
    rw [patchNode_ntype, patchNode_at_detail_uv s fl n heq]
    by_cases h : (n.ntype == "UVMAP" && s.detail_uv != "") = true <;> simp [h]
  · rename_i heq
    rw [patchNode_ntype, patchNode_at_overlay_uv s fl n heq]
    by_cases h : (n.ntype == "UVMAP" && s.overlay_uv != "") = true <;> simp [h]
  · rename_i heq
    rw [patchNode_ntype, patchNode_at_environment_uv s fl n heq]
    by_cases h : (n.ntype == "UVMAP" && s.environment_uv != "") = true <;> simp [h]
  · rename_i heq
    rw [patchNode_ntype, patchNode_at_decal_uv s fl n heq]
    by_cases h : (n.ntype == "UVMAP" && s.decal_uv != "") = true <;> simp [h]
  · rename_i heq
    rw [patchNode_ntype, patchNode_at_transparent_uv s fl n heq]
    by_cases h : (n.ntype == "UVMAP" && s.transparent_uv != "") = true <;> simp [h]
  · rename_i heq
    rw [patchNode_ntype, patchNode_at_noise_uv s fl n heq]
    by_cases h : (n.ntype == "UVMAP" && s.noise_uv != "") = true <;> simp [h]
  · rename_i heq
    rw [patchNode_at_detailMapping s fl n heq]
  · rename_i heq
    rw [patchNode_at_macroMapping s fl n heq]
  · rename_i heq
    rw [patchNode_at_macroMix s fl n heq]
  · rename_i heq
    rw [patchNode_at_mixShader s fl n heq]
    cases fl <;> simp
  · rfl

lemma find?_name_patchNodes (s : Settings) (fl : Bool) (nm : String)
    (l : List Node) :
    ((patchNodes s fl l).find? (fun n => n.name == nm)).isSome
      = (l.find? (fun n => n.name == nm)).isSome := by
  induction l with
  | nil => rfl
  | cons a t ih =>
    unfold patchNodes at ih ⊢
    rw [List.map_cons]
    rw [List.find?_cons, List.find?_cons, patchNode_name]
    cases hb : (a.name == nm)
    · simp only [hb]; exact ih
    · simp only [hb]; rfl

lemma isNone_congr {o₁ o₂ : Option Node} (h : o₁.isSome = o₂.isSome) :
    o₁.isNone = o₂.isNone := by
  cases o₁ <;> cases o₂ <;> simp_all

lemma ensureLightmapLink_nodes (t : NodeTree) :
    (ensureLightmapLink t).nodes = t.nodes := by
  unfold ensureLightmapLink
  split <;> (try split) <;> rfl

lemma facIsLinked_append_lml (ls : List Link) :
    facIsLinked (ls ++ [lightmapEmissionLink]) = facIsLinked ls := by
  simp [facIsLinked, List.any_append, lightmapEmissionLink]

lemma facIsLinked_ensure (t : NodeTree) :
    facIsLinked (ensureLightmapLink t).links = facIsLinked t.links := by
  unfold ensureLightmapLink
  split
  · split
    · rfl
    · exact facIsLinked_append_lml t.links
  · rfl

lemma criticalMissing_patched (s : Settings) (fl : Bool) (nt : NodeTree) :
    criticalMissing
        (ensureLightmapLink { nt with nodes := patchNodes s fl nt.nodes })
      = criticalMissing nt := by
  unfold criticalMissing getNode
  rw [ensureLightmapLink_nodes]
  simp only [List.any_cons, List.any_nil]
  rw [isNone_congr (find?_name_patchNodes s fl "BR_BSDF" nt.nodes),
    isNone_congr (find?_name_patchNodes s fl "BR_MixShader" nt.nodes),
    isNone_congr (find?_name_patchNodes s fl "BR_Emission" nt.nodes)]

lemma patchFix_diffuse_uv (s : Settings) (fl : Bool) :
    patchNode s fl (mkUvNode "BR_DiffuseUV" s.diffuse_uv) = mkUvNode "BR_DiffuseUV" s.diffuse_uv := by
  rw [patchNode_at_diffuse_uv s fl _ rfl]
  by_cases h : s.diffuse_uv = "" <;> simp [mkUvNode, h]

lemma patchFix_normal_uv (s : Settings) (fl : Bool) :
    patchNode s fl (mkUvNode "BR_NormalUV" s.normal_uv) = mkUvNode "BR_NormalUV" s.normal_uv := by
  rw [patchNode_at_normal_uv s fl _ rfl]
  by_cases h : s.normal_uv = "" <;> simp [mkUvNode, h]

lemma patchFix_specular_uv (s : Settings) (fl : Bool) :
    patchNode s fl (mkUvNode "BR_SpecularUV" s.specular_uv) = mkUvNode "BR_SpecularUV" s.specular_uv := by
  rw [patchNode_at_specular_uv s fl _ rfl]
  by_cases h : s.specular_uv = "" <;> simp [mkUvNode, h]

lemma patchFix_lightmap_uv (s : Settings) (fl : Bool) :
    patchNode s fl (mkUvNode "BR_LightmapUV" s.lightmap_uv) = mkUvNode "BR_LightmapUV" s.lightmap_uv := by
  rw [patchNode_at_lightmap_uv s fl _ rfl]
  by_cases h : s.lightmap_uv = "" <;> simp [mkUvNode, h]

lemma patchFix_detail_uv (s : Settings) (fl : Bool) :
    patchNode s fl (mkUvNode "BR_DetailUV" s.detail_uv) = mkUvNode "BR_DetailUV" s.detail_uv := by
  rw [patchNode_at_detail_uv s fl _ rfl]
  by_cases h : s.detail_uv = "" <;> simp [mkUvNode, h]

lemma patchFix_overlay_uv (s : Settings) (fl : Bool) :
    patchNode s fl (mkUvNode "BR_MacroOverlayUV" s.overlay_uv) = mkUvNode "BR_MacroOverlayUV" s.overlay_uv := by
  rw [patchNode_at_overlay_uv s fl _ rfl]
  by_cases h : s.overlay_uv = "" <;> simp [mkUvNode, h]

lemma patchFix_out (s : Settings) (fl : Bool) :
    patchNode s fl { name := "Material Output", ntype := "OUTPUT_MATERIAL" } =
      ({ name := "Material Output", ntype := "OUTPUT_MATERIAL" } : Node) := rfl

lemma patchFix_bsdf (s : Settings) (fl : Bool) :
    patchNode s fl { name := "BR_BSDF", ntype := "BSDF_PRINCIPLED" } =
      ({ name := "BR_BSDF", ntype := "BSDF_PRINCIPLED" } : Node) := rfl

lemma patchFix_mixShader (s : Settings) :
    patchNode s false
        { name := "BR_MixShader", ntype := "MIX_SHADER", fac := mkRat 2 100 } =
      ({ name := "BR_MixShader", ntype := "MIX_SHADER", fac := mkRat 2 100 } : Node) := rfl

lemma patchFix_emission (s : Settings) (fl : Bool) :
    patchNode s fl { name := "BR_Emission", ntype := "EMISSION" } =
      ({ name := "BR_Emission", ntype := "EMISSION" } : Node) := rfl

lemma patchFix_normalMap (s : Settings) (fl : Bool) :
    patchNode s fl { name := "BR_NormalMap", ntype := "NORMAL_MAP" } =
      ({ name := "BR_NormalMap", ntype := "NORMAL_MAP" } : Node) := rfl

lemma patchFix_sepRGB (s : Settings) (fl : Bool) :
    patchNode s fl
        { name := "Separate RGB", ntype := "SEPRGB", label := "Specular Extract" } =
      ({ name := "Separate RGB", ntype := "SEPRGB", label := "Specular Extract" } : Node) := rfl

lemma patchFix_detailNormalMap (s : Settings) (fl : Bool) :
    patchNode s fl
        { name := "Normal Map", ntype := "NORMAL_MAP", label := "Detail Normal Map" } =
      ({ name := "Normal Map", ntype := "NORMAL_MAP", label := "Detail Normal Map" } : Node) := rfl

lemma patchFix_tex_diffuse (s : Settings) (fl : Bool) :
    patchNode s fl (mkTexNode "BR_DiffuseTex" "DiffuseTexture" s.diffuse_tex) =
      mkTexNode "BR_DiffuseTex" "DiffuseTexture" s.diffuse_tex := rfl

lemma patchFix_tex_normal (s : Settings) (fl : Bool) :
    patchNode s fl (mkTexNode "BR_NormalTex" "NormalTexture" s.normal_tex) =
      mkTexNode "BR_NormalTex" "NormalTexture" s.normal_tex := rfl

lemma patchFix_tex_specular (s : Settings) (fl : Bool) :
    patchNode s fl (mkTexNode "BR_SpecularTex" "SpecularTexture" s.specular_tex) =
      mkTexNode "BR_SpecularTex" "SpecularTexture" s.specular_tex := rfl

lemma patchFix_tex_lightmap (s : Settings) (fl : Bool) :
    patchNode s fl (mkTexNode "BR_LightmapTex" "LightMapTexture" s.lightmap_tex) =
      mkTexNode "BR_LightmapTex" "LightMapTexture" s.lightmap_tex := rfl

lemma patchFix_tex_detail (s : Settings) (fl : Bool) :
    patchNode s fl (mkTexNode "BR_DetailTex" "DetailTexture" s.detail_tex) =
      mkTexNode "BR_DetailTex" "DetailTexture" s.detail_tex := rfl

lemma patchFix_tex_overlay (s : Settings) (fl : Bool) :
    patchNode s fl (mkTexNode "BR_MacroOverlayTex" "MacroOverlayTexture" s.overlay_tex) =
      mkTexNode "BR_MacroOverlayTex" "MacroOverlayTexture" s.overlay_tex := rfl

lemma patchFix_detailMapping (s : Settings) (fl : Bool) :
    patchNode s fl (mkMappingNode "BR_DetailMapping" s.detail_normal_uv_scale) =
      mkMappingNode "BR_DetailMapping" s.detail_normal_uv_scale := rfl

lemma patchFix_macroMapping (s : Settings) (fl : Bool) :
    patchNode s fl (mkMappingNode "BR_MacroMapping" s.overlay_uv_scale) =
      mkMappingNode "BR_MacroMapping" s.overlay_uv_scale := rfl

lemma patchFix_normalMix (s : Settings) (fl : Bool) :
    patchNode s fl (mkMixRGBNode "BR_NormalMix" "" (mkRat 1 2)) =
      mkMixRGBNode "BR_NormalMix" "" (mkRat 1 2) := rfl

lemma patchFix_macroMix (s : Settings) (fl : Bool) :
    patchNode s fl (mkMixRGBNode "BR_MacroMix" "" s.overlay_opacity) =
      mkMixRGBNode "BR_MacroMix" "" s.overlay_opacity := rfl

lemma criticalMissing_build (s : Settings) :
    criticalMissing (build_blenrose_node_tree s) = false := by
  simp [build_blenrose_node_tree, criticalMissing, getNode,
    mkUvNode, mkTexNode, mkMappingNode, mkMixRGBNode]

lemma facIsLinked_build (s : Settings) :
    facIsLinked (build_blenrose_node_tree s).links = false := by
  by_cases hd : s.detail_tex.isSome <;> by_cases hm : s.overlay_tex.isSome <;>
    simp [build_blenrose_node_tree, facIsLinked, lightmapEmissionLink, hd, hm]

lemma lightmapLinkExists_build (s : Settings) :
    lightmapLinkExists (build_blenrose_node_tree s).links = true := by
  by_cases hd : s.detail_tex.isSome <;> by_cases hm : s.overlay_tex.isSome <;>
    simp [build_blenrose_node_tree, lightmapLinkExists, lightmapEmissionLink, hd, hm]

lemma patchNodes_build (s : Settings) :
    patchNodes s false (build_blenrose_node_tree s).nodes
      = (build_blenrose_node_tree s).nodes := by
  unfold build_blenrose_node_tree patchNodes
  by_cases hd : s.detail_tex.isSome <;> by_cases hm : s.overlay_tex.isSome <;>
    simp only [hd, hm, if_true, if_false, List.map_append, List.map_cons,
      List.map_nil, List.append_nil, ite_true, ite_false,
      patchFix_diffuse_uv, patchFix_normal_uv, patchFix_specular_uv,
      patchFix_lightmap_uv, patchFix_detail_uv, patchFix_overlay_uv,
      patchFix_out, patchFix_bsdf, patchFix_mixShader, patchFix_emission,
      patchFix_normalMap, patchFix_sepRGB, patchFix_detailNormalMap,
      patchFix_tex_diffuse, patchFix_tex_normal, patchFix_tex_specular,
      patchFix_tex_lightmap, patchFix_tex_detail, patchFix_tex_overlay,
      patchFix_detailMapping, patchFix_macroMapping, patchFix_normalMix,
      patchFix_macroMix] <;> simp


lemma filter_nonBR_patchNodes (s : Settings) (fl : Bool) (l : List Node) :
    (patchNodes s fl l).filter (fun n => !(inBRNamespace n.name))
      = l.filter (fun n => !(inBRNamespace n.name)) := by
  induction l with
  | nil => rfl
  | cons a t ih =>
    unfold patchNodes at ih ⊢
    rw [List.map_cons]
    by_cases hb : inBRNamespace a.name = true
    · have hb2 : inBRNamespace (patchNode s fl a).name = true := by
        rw [patchNode_name]; exact hb
      rw [List.filter_cons, List.filter_cons]
      simp [hb, hb2, ih]
    · have hbf : inBRNamespace a.name = false := by
        revert hb; cases inBRNamespace a.name <;> simp
      rw [patchNode_of_not_inBR s fl a hbf, List.filter_cons, List.filter_cons]
      simp [ih]

lemma ensureLightmapLink_reassemble (t : NodeTree) :
    ensureLightmapLink { nodes := t.nodes, links := (ensureLightmapLink t).links }
      = ensureLightmapLink t := by
  by_cases hp : ((getNode t "BR_Emission").isSome &&
      (getNode t "BR_LightmapTex").isSome) = true
  · by_cases hl : lightmapLinkExists t.links = true
    · have e : ensureLightmapLink t = t := by
        unfold ensureLightmapLink; rw [if_pos hp, if_pos hl]
      rw [e]
      exact e
    · have e : ensureLightmapLink t =
          { t with links := t.links ++ [lightmapEmissionLink] } := by
        unfold ensureLightmapLink; rw [if_pos hp, if_neg hl]
      rw [e]
      have hl2 : lightmapLinkExists (t.links ++ [lightmapEmissionLink]) = true := by
        simp [lightmapLinkExists, List.any_append, lightmapEmissionLink]
      unfold ensureLightmapLink
      rw [if_pos, if_pos hl2]
      exact hp
  · have e : ensureLightmapLink t = t := by
      unfold ensureLightmapLink; rw [if_neg hp]
    rw [e]
    exact e

/-- C1 amended: when the three load-bearing nodes (BR_BSDF,
BR_MixShader, BR_Emission) are present, the synchronizer's update path
takes the targeted patch and side-effects only reserved-namespace
nodes — every node outside the "BR_" namespace is left untouched, with
its data and relative order intact.  When a critical node is missing,
the triggered rebuild clears the whole graph, so nodes outside the
namespace are removed as well (see the counterexample). -/
theorem C1_amended (supp : List Nat) (m : Nat) (s : Settings) (nt : NodeTree)
    (h : criticalMissing nt = false) :
    (updateAllBlenroseNodes supp m s nt).nodes.filter
        (fun n => !(inBRNamespace n.name))
      = nt.nodes.filter (fun n => !(inBRNamespace n.name)) := by
  by_cases hm : m ∈ supp
  · simp [updateAllBlenroseNodes, hm]
  · simp only [updateAllBlenroseNodes, if_neg hm, h, Bool.false_eq_true,
      if_false]
    rw [ensureLightmapLink_nodes]
    exact filter_nonBR_patchNodes s (facIsLinked nt.links) nt.nodes

theorem C1_amended_witness :
    (updateAllBlenroseNodes [] 0 {}
        ⟨[{ name := "BR_BSDF", ntype := "BSDF_PRINCIPLED" },
          { name := "BR_MixShader", ntype := "MIX_SHADER" },
          { name := "BR_Emission", ntype := "EMISSION" },
          { name := "UserNode", ntype := "TEX_IMAGE" }], []⟩).nodes.filter
        (fun n => !(inBRNamespace n.name))
      = (⟨[{ name := "BR_BSDF", ntype := "BSDF_PRINCIPLED" },
           { name := "BR_MixShader", ntype := "MIX_SHADER" },
           { name := "BR_Emission", ntype := "EMISSION" },
           { name := "UserNode", ntype := "TEX_IMAGE" }], []⟩ : NodeTree).nodes.filter
        (fun n => !(inBRNamespace n.name)) :=
  C1_amended [] 0 {} _ (by decide)

/-- C7: after any non-suppressed synchronize pass whose result contains
both the managed emission node and the managed lightmap texture node,
the lightmap Color output is connected to the emission Color input —
whether the pass rebuilt the tree or took the patch path, and
regardless of whether a lightmap image is assigned in the settings. -/
theorem C7_lightmap_connection (supp : List Nat) (m : Nat) (s : Settings)
    (nt : NodeTree) (h1 : m ∉ supp)
    (h2 : (getNode (updateAllBlenroseNodes supp m s nt) "BR_Emission").isSome = true)
    (h3 : (getNode (updateAllBlenroseNodes supp m s nt) "BR_LightmapTex").isSome = true) :
    lightmapLinkExists (updateAllBlenroseNodes supp m s nt).links = true := by
  simp only [updateAllBlenroseNodes, if_neg h1] at h2 h3 ⊢
  by_cases hcm : criticalMissing nt = true
  · simp only [if_pos hcm] at h2 h3 ⊢
    exact lightmapLinkExists_build s
  · simp only [if_neg hcm] at h2 h3 ⊢
    unfold getNode at h2 h3
    rw [ensureLightmapLink_nodes] at h2 h3
    unfold ensureLightmapLink
    rw [if_pos]
    · split
      · rename_i hex; exact hex
      · simp [lightmapLinkExists, List.any_append, lightmapEmissionLink]
    · rw [Bool.and_eq_true]
      exact ⟨h2, h3⟩

theorem C7_lightmap_connection_witness :
    lightmapLinkExists (updateAllBlenroseNodes [] 0 {} ⟨[], []⟩).links = true :=
  C7_lightmap_connection [] 0 {} ⟨[], []⟩ (by decide) (by decide) (by decide)

/-- C2: synchronizing twice with the same unchanged settings yields
exactly the graph of the first pass — identical node list and identical
link list, so the second call creates no duplicate nodes and no
duplicate links.  This covers both the rebuild path (the rebuilt tree
has its critical nodes, so the second pass patches it back to itself)
and the patch path (the patch and the link re-establishment are
idempotent). -/
theorem C2_sync_idempotent (supp : List Nat) (m : Nat) (s : Settings)
    (nt : NodeTree) :
    updateAllBlenroseNodes supp m s (updateAllBlenroseNodes supp m s nt)
      = updateAllBlenroseNodes supp m s nt := by
  by_cases hm : m ∈ supp
  · simp [updateAllBlenroseNodes, hm]
  · by_cases hcm : criticalMissing nt = true
    · have h1 : updateAllBlenroseNodes supp m s nt = build_blenrose_node_tree s := by
        simp [updateAllBlenroseNodes, hm, hcm]
      rw [h1]
      simp only [updateAllBlenroseNodes, if_neg hm, criticalMissing_build,
        Bool.false_eq_true, if_false]
      rw [facIsLinked_build, patchNodes_build]
      show ensureLightmapLink (build_blenrose_node_tree s)
        = build_blenrose_node_tree s
      unfold ensureLightmapLink
      split
      · rw [if_pos (lightmapLinkExists_build s)]
      · rfl
    · have hcmf : criticalMissing nt = false := by
        revert hcm; cases criticalMissing nt <;> simp
      have h1 : updateAllBlenroseNodes supp m s nt
          = ensureLightmapLink
              { nt with nodes := patchNodes s (facIsLinked nt.links) nt.nodes } := by
        simp only [updateAllBlenroseNodes, if_neg hm, hcmf, Bool.false_eq_true,
          if_false]
      rw [h1]
      have hcmt : criticalMissing
          (ensureLightmapLink
            { nt with nodes := patchNodes s (facIsLinked nt.links) nt.nodes })
          = false := by
        rw [criticalMissing_patched]; exact hcmf
      simp only [updateAllBlenroseNodes, if_neg hm, hcmt, Bool.false_eq_true,
        if_false]
      rw [facIsLinked_ensure]
      show ensureLightmapLink
          { ensureLightmapLink
              { nt with nodes := patchNodes s (facIsLinked nt.links) nt.nodes } with
            nodes := patchNodes s
              (facIsLinked { nt with
                  nodes := patchNodes s (facIsLinked nt.links) nt.nodes }.links)
              (ensureLightmapLink
                { nt with nodes := patchNodes s (facIsLinked nt.links) nt.nodes }).nodes }
        = ensureLightmapLink
            { nt with nodes := patchNodes s (facIsLinked nt.links) nt.nodes }
      rw [ensureLightmapLink_nodes]
      have hnodes : patchNodes s
          (facIsLinked { nt with
              nodes := patchNodes s (facIsLinked nt.links) nt.nodes }.links)
          (patchNodes s (facIsLinked nt.links) nt.nodes)
          = patchNodes s (facIsLinked nt.links) nt.nodes := by
        show patchNodes s (facIsLinked nt.links)
            (patchNodes s (facIsLinked nt.links) nt.nodes)
          = patchNodes s (facIsLinked nt.links) nt.nodes
        unfold patchNodes
        rw [List.map_map]
        exact List.map_congr_left
          (fun a ha => patchNode_idem s (facIsLinked nt.links) a)
      rw [hnodes]
      exact ensureLightmapLink_reassemble
        { nodes := patchNodes s (facIsLinked nt.links) nt.nodes,
          links := nt.links }

end BlenRose
